import Mathlib

/-!
# Verification of the PostGIS text-to-SQL / confirmation subsystem

A shallow embedding, in Lean 4, of the subsystem of this repository that
turns free text into SQL and gates its execution:

* the execution gate of `execute_sql` (`src/server.py`),
* the natural-language query parser and SQL generators of
  `src/tools/text_to_sql.py` (`NLQueryParser`, `SQLGenerator`,
  `parse_nl_query`),
* the training-session store and its confirm/cancel protocol of
  `src/vanna_server/vanna_service.py` (`confirm_training`,
  `cancel_training`, `training_sessions`).

Python strings are modelled by Lean `String` / `List Char`.  `str.upper`,
`str.lower` and `str.strip` are modelled by the ASCII case maps and
ASCII-whitespace trimming; all inputs relevant to the statements below are
ASCII or CJK characters, on which the Python and Lean maps agree (CJK
characters are fixed by both case maps and are not whitespace).  Python
floats produced from the decimal literals matched by the extractors are
modelled exactly as rationals (`ℚ`).
-/

/-! ## String primitives -/

/-- Test that the block `p` occurs at the very beginning of `l`
(Python `str.startswith`). -/
def listStarts (p l : List Char) : Bool :=
  match p, l with
  | [], _ => true
  | _ :: _, [] => false
  | a :: p', b :: l' => a = b && listStarts p' l'

/-- Test that the block `p` occurs contiguously somewhere inside `l`
(Python substring test `p in l`). -/
def listContains (p : List Char) : List Char → Bool
  | [] => p.isEmpty
  | l@(_ :: t) => listStarts p l || listContains p t

/-- Trim whitespace from both ends of a character list
(Python `str.strip()`). -/
def stripData (l : List Char) : List Char :=
  ((l.dropWhile Char.isWhitespace).reverse.dropWhile Char.isWhitespace).reverse

/-- Python `str.strip()`. -/
def pyStrip (s : String) : String := ⟨stripData s.data⟩

/-- Python `str.upper()` (ASCII case map; CJK characters are unchanged
by both the Python and the Lean map). -/
def pyUpper (s : String) : String := ⟨s.data.map Char.toUpper⟩

/-- Python `str.lower()` (ASCII case map). -/
def pyLower (s : String) : String := ⟨s.data.map Char.toLower⟩

theorem listStarts_append (p v : List Char) : listStarts p (p ++ v) = true := by
  induction p with
  | nil => rfl
  | cons a p' ih => simp [listStarts, ih]

theorem listStarts_exists {p l : List Char} (h : listStarts p l = true) :
    ∃ v, l = p ++ v := by
  induction p generalizing l with
  | nil => exact ⟨l, rfl⟩
  | cons a p' ih =>
    cases l with
    | nil => simp [listStarts] at h
    | cons b l' =>
      simp only [listStarts, Bool.and_eq_true, decide_eq_true_eq] at h
      obtain ⟨rfl, h2⟩ := h
      obtain ⟨v, rfl⟩ := ih h2
      exact ⟨v, rfl⟩

theorem listContains_iff (p l : List Char) :
    listContains p l = true ↔ ∃ u v, l = u ++ p ++ v := by
  induction l with
  | nil =>
    simp only [listContains, List.isEmpty_iff]
    constructor
    · rintro rfl; exact ⟨[], [], rfl⟩
    · rintro ⟨u, v, h⟩
      rcases List.append_eq_nil.mp (List.append_eq_nil.mp h.symm).1 with ⟨-, h2⟩
      exact h2
  | cons c t ih =>
    simp only [listContains, Bool.or_eq_true, ih]
    constructor
    · rintro (h | ⟨u, v, rfl⟩)
      · obtain ⟨v, hv⟩ := listStarts_exists h
        exact ⟨[], v, by simp [hv]⟩
      · exact ⟨c :: u, v, rfl⟩
    · rintro ⟨u, v, h⟩
      cases u with
      | nil =>
        left
        simp only [List.nil_append] at h
        rw [h]
        exact listStarts_append p v
      | cons c' u' =>
        right
        simp only [List.cons_append] at h
        exact ⟨u', v, (List.cons.injEq .. ▸ h).2⟩

theorem listContains_of_middle (p u v : List Char) :
    listContains p (u ++ p ++ v) = true :=
  (listContains_iff p _).mpr ⟨u, v, rfl⟩

/-- A nonempty whitespace-free block survives left whitespace trimming. -/
theorem listContains_dropWhile {p l : List Char} (hne : p ≠ [])
    (hws : ∀ c ∈ p, c.isWhitespace = false)
    (h : listContains p l = true) :
    listContains p (l.dropWhile Char.isWhitespace) = true := by
  induction l with
  | nil => simp [listContains, List.isEmpty_iff, hne] at h
  | cons c t ih =>
    by_cases hc : c.isWhitespace
    · rw [List.dropWhile_cons_of_pos hc]
      apply ih
      simp only [listContains, Bool.or_eq_true] at h
      rcases h with h | h
      · obtain ⟨v, hv⟩ := listStarts_exists h
        cases p with
        | nil => exact absurd rfl hne
        | cons a p' =>
          simp only [List.cons_append, List.cons.injEq] at hv
          exact absurd (hv.1 ▸ hc) (by simpa using hws a (by simp))
      · exact h
    · rwa [List.dropWhile_cons_of_neg hc]

/-- A nonempty whitespace-free block of `l` survives `strip`. -/
theorem listContains_strip {p l : List Char} (hne : p ≠ [])
    (hws : ∀ c ∈ p, c.isWhitespace = false)
    (h : listContains p l = true) :
    listContains p (stripData l) = true := by
  have hrev : ∀ q m : List Char, listContains q m = true →
      listContains q.reverse m.reverse = true := by
    intro q m hm
    obtain ⟨u, v, rfl⟩ := (listContains_iff q m).mp hm
    refine (listContains_iff _ _).mpr ⟨v.reverse, u.reverse, ?_⟩
    simp
  unfold stripData
  have h1 := listContains_dropWhile hne hws h
  have h2 := hrev p _ h1
  have h3 := listContains_dropWhile (p := p.reverse)
    (by simpa using hne) (by simpa using hws) h2
  have h4 := hrev p.reverse _ h3
  simpa using h4

/-- The first element of a list satisfying a predicate, together with the
prefix of earlier elements that all fail it (specification of the
first-hit loops used by the gate and the intent classifier). -/
theorem find?_first_hit {α : Type} (p : α → Bool) (l : List α) (a : α)
    (h : l.find? p = some a) :
    ∃ l₁ l₂, l = l₁ ++ a :: l₂ ∧ p a = true ∧ ∀ x ∈ l₁, p x = false := by
  induction l with
  | nil => simp [List.find?] at h
  | cons b t ih =>
    rcases hb : p b with _ | _
    · rw [List.find?_cons_of_neg _ (by simp [hb])] at h
      obtain ⟨l₁, l₂, rfl, hpa, hall⟩ := ih h
      refine ⟨b :: l₁, l₂, rfl, hpa, ?_⟩
      intro x hx
      rcases List.mem_cons.mp hx with rfl | hx
      · exact hb
      · exact hall x hx
    · rw [List.find?_cons_of_pos _ hb] at h
      cases h
      exact ⟨[], t, rfl, hb, by simp⟩

/-! ## Execution gate (`execute_sql`, `src/server.py`)

`execute_sql(sql, limit=100, confirmed=False)` applies, in order:
1. `if not confirmed: return error` (confirmation required);
2. `sql_upper = sql.strip().upper()`; reject unless it starts with
   `SELECT` or `--`;
3. reject if any keyword of the denylist, iterated in its fixed order,
   occurs as a substring of `sql_upper`;
otherwise the statement is forwarded to `execute_generated_sql`.
-/

/-- The fixed denylist of `execute_sql`, in its declared iteration
order. -/
def dangerous_keywords : List String :=
  ["DROP", "DELETE", "TRUNCATE", "INSERT", "UPDATE", "ALTER", "CREATE"]

/-- Outcome of the execution gate of `execute_sql`.  `accept` is the one
branch that reaches `execute_generated_sql` (the database); every other
constructor is an early `{success: False, error: ...}` return. -/
inductive SqlGateResult where
  | accept
  | confirmationRequired
  | notASelectStatement
  | forbiddenKeyword (kw : String)
deriving DecidableEq

/-- The validation portion of `execute_sql` (`src/server.py`): the checks
performed before the statement may reach the database.  The `for` loop
over `dangerous_keywords` with an early return is `List.find?`. -/
def execute_sql_gate (sql : String) (confirmed : Bool) : SqlGateResult :=
  if !confirmed then .confirmationRequired
  else
    let sql_upper := pyUpper (pyStrip sql)
    if !(listStarts "SELECT".data sql_upper.data) &&
       !(listStarts "--".data sql_upper.data) then
      .notASelectStatement
    else
      match dangerous_keywords.find?
          (fun kw => listContains kw.data sql_upper.data) with
      | some kw => .forbiddenKeyword kw
      | none => .accept

/-- C2: the execution gate applies its rules in fixed order with the
first failure winning: with `confirmed = false` every text yields
`ConfirmationRequired`; with `confirmed = true`, a text whose trimmed
upper-cased form starts with neither `SELECT` nor `--` yields
`NotASelectStatement` (so `UPDATE t SET x=1` is rejected by rule 2, not
as a forbidden keyword); otherwise the first denylist hit yields
`ForbiddenKeyword`, so `SELECT 1; DROP TABLE x` yields
`ForbiddenKeyword "DROP"`. -/
theorem c2_gate_rules_fixed_order :
    (∀ sql : String, execute_sql_gate sql false = .confirmationRequired) ∧
    (∀ sql : String,
      listStarts "SELECT".data (pyUpper (pyStrip sql)).data = false →
      listStarts "--".data (pyUpper (pyStrip sql)).data = false →
      execute_sql_gate sql true = .notASelectStatement) ∧
    (∀ sql kw : String,
      (listStarts "SELECT".data (pyUpper (pyStrip sql)).data = true ∨
       listStarts "--".data (pyUpper (pyStrip sql)).data = true) →
      dangerous_keywords.find?
          (fun k => listContains k.data (pyUpper (pyStrip sql)).data) = some kw →
      execute_sql_gate sql true = .forbiddenKeyword kw) ∧
    execute_sql_gate "UPDATE t SET x=1" true = .notASelectStatement ∧
    execute_sql_gate "SELECT 1; DROP TABLE x" true = .forbiddenKeyword "DROP" ∧
    execute_sql_gate "SELECT 1" false = .confirmationRequired := by
  refine ⟨fun sql => rfl, fun sql h1 h2 => ?_, fun sql kw hstart hfind => ?_,
    by decide, by decide, rfl⟩
  · simp [execute_sql_gate, h1, h2]
  · have hcond : (!(listStarts "SELECT".data (pyUpper (pyStrip sql)).data) &&
        !(listStarts "--".data (pyUpper (pyStrip sql)).data)) = false := by
      rcases hstart with h | h <;> simp [h]
    simp [execute_sql_gate, hcond, hfind]

/-- Closed instantiation of the conditional parts of the C2 theorem. -/
theorem c2_gate_rules_fixed_order_witness :
    execute_sql_gate "UPDATE t SET x=1" true = .notASelectStatement ∧
    execute_sql_gate "SELECT 1; DROP TABLE x" true = .forbiddenKeyword "DROP" :=
  ⟨c2_gate_rules_fixed_order.2.1 "UPDATE t SET x=1" (by decide) (by decide),
   c2_gate_rules_fixed_order.2.2.1 "SELECT 1; DROP TABLE x" "DROP"
     (Or.inl (by decide)) (by decide)⟩

/-- C4: the denylist check is a textual over-approximation: for every
confirmed text that starts with `SELECT` or `--` (after trim/upcase) and
whose upper-cased form contains any denylisted token as a substring
anywhere — even inside an identifier such as `created_at` — the gate
rejects with `ForbiddenKeyword` of the first such token in denylist
order, and never accepts such a statement (so it does not reach the
database). -/
theorem c4_denylist_textual_over_approximation :
    (∀ sql : String,
      (listStarts "SELECT".data (pyUpper (pyStrip sql)).data = true ∨
       listStarts "--".data (pyUpper (pyStrip sql)).data = true) →
      ∀ kw ∈ dangerous_keywords,
        listContains kw.data (pyUpper (pyStrip sql)).data = true →
        ∃ hit pre post,
          dangerous_keywords = pre ++ hit :: post ∧
          listContains hit.data (pyUpper (pyStrip sql)).data = true ∧
          (∀ k ∈ pre, listContains k.data (pyUpper (pyStrip sql)).data = false) ∧
          execute_sql_gate sql true = .forbiddenKeyword hit) ∧
    execute_sql_gate "SELECT created_at FROM t" true = .forbiddenKeyword "CREATE" := by
  constructor
  · intro sql hstart kw hmem hkw
    have hfind : dangerous_keywords.find?
        (fun k => listContains k.data (pyUpper (pyStrip sql)).data) ≠ none := by
      intro hn
      have := List.find?_eq_none.mp hn kw hmem
      simp [hkw] at this
    obtain ⟨hit, hsome⟩ := Option.ne_none_iff_exists'.mp hfind
    obtain ⟨pre, post, hsplit, hphit, hpre⟩ := find?_first_hit _ _ _ hsome
    refine ⟨hit, pre, post, hsplit, hphit, fun k hk => ?_, ?_⟩
    · simpa using hpre k hk
    · have hcond : (!(listStarts "SELECT".data (pyUpper (pyStrip sql)).data) &&
          !(listStarts "--".data (pyUpper (pyStrip sql)).data)) = false := by
        rcases hstart with h | h <;> simp [h]
      simp [execute_sql_gate, hcond, hsome]
  · decide

/-- Closed instantiation of the universal part of the C4 theorem at the
statement containing a denylisted substring inside a literal. -/
theorem c4_denylist_textual_over_approximation_witness :
    ∃ hit pre post,
      dangerous_keywords = pre ++ hit :: post ∧
      listContains hit.data
        (pyUpper (pyStrip "SELECT 1; DROP TABLE x")).data = true ∧
      (∀ k ∈ pre, listContains k.data
        (pyUpper (pyStrip "SELECT 1; DROP TABLE x")).data = false) ∧
      execute_sql_gate "SELECT 1; DROP TABLE x" true = .forbiddenKeyword hit :=
  c4_denylist_textual_over_approximation.1 "SELECT 1; DROP TABLE x"
    (Or.inl (by decide)) "DROP" (by decide) (by decide)

/-! ## Pending-action store (`src/vanna_server/vanna_service.py`)

`training_sessions` is a module-level Python `dict` mapping session ids
to `TrainingSession` objects (`session_id`, `training_type`, `data`,
`created_at`, `status`, initially `"pending"`).

`confirm_training` (route `/api/vanna/train/confirm`) looks the session
up (`training_sessions.get(session_id)`); a missing id is an error
("训练会话 ... 不存在"); a session whose `status == "completed"` is an
error ("训练会话已完成"); otherwise the staged effect runs
(`vn.train(...)` on the session's payload) and `session.status` is set
to `"completed"`, leaving the session in the dict.

`cancel_training` (route `/api/vanna/train/cancel`) checks only
membership: `if session_id in training_sessions: del ...; success`,
else "训练会话 ... 不存在".  It does not inspect `status`.

The dict is modelled as an association list with first-match lookup;
assignment on a present key and `del` are modelled pointwise.  The calls
to `vn.train` are recorded in an append-only `trained` log; one payload
string stands for the session's `data` dict (for `ddl` sessions the loop
over `ddl_list` is one staged effect).
-/

/-- A staged training action awaiting confirmation
(class `TrainingSession`). -/
structure TrainingSession where
  session_id : String
  training_type : String
  payload : String
  status : String
deriving DecidableEq

/-- The shared state of the Vanna training service: the
`training_sessions` dict plus the log of executed `vn.train` calls. -/
structure VannaState where
  training_sessions : List (String × TrainingSession)
  trained : List (String × String)
deriving DecidableEq

/-- First-match association-list lookup (`dict.get`). -/
def slookup (l : List (String × TrainingSession)) (k : String) :
    Option TrainingSession :=
  match l with
  | [] => none
  | (k', v) :: t => if k' = k then some v else slookup t k

/-- Overwrite the value stored at a present key
(`session.status = "completed"` mutating the stored object). -/
def supdate : List (String × TrainingSession) → String → TrainingSession →
    List (String × TrainingSession)
  | [], _, _ => []
  | (k', w) :: t, k, v =>
    if k' = k then (k, v) :: supdate t k v else (k', w) :: supdate t k v

/-- Remove a key (`del training_sessions[session_id]`). -/
def sremove : List (String × TrainingSession) → String →
    List (String × TrainingSession)
  | [], _ => []
  | (k', w) :: t, k =>
    if k' = k then sremove t k else (k', w) :: sremove t k

/-- Outcome of `confirm_training`. -/
inductive ConfirmResult where
  | success
  /-- "训练会话 ... 不存在" (unknown session id). -/
  | unknownSession
  /-- "训练会话已完成" (the session was already confirmed). -/
  | alreadyCompleted
deriving DecidableEq

/-- Outcome of `cancel_training`. -/
inductive CancelResult where
  | success
  /-- "训练会话 ... 不存在" (unknown session id). -/
  | unknownSession
deriving DecidableEq

/-- The `/api/vanna/train/confirm` handler `confirm_training`
(`src/vanna_server/vanna_service.py`): look the session up; fail on a
missing id; fail on `status == "completed"`; otherwise execute the
staged training effect and mark the session completed (the session
stays in the dict). -/
def confirm_training (st : VannaState) (sid : String) :
    ConfirmResult × VannaState :=
  match slookup st.training_sessions sid with
  | none => (.unknownSession, st)
  | some s =>
    if s.status = "completed" then (.alreadyCompleted, st)
    else
      (.success,
        { training_sessions :=
            supdate st.training_sessions sid { s with status := "completed" },
          trained := st.trained ++ [(s.training_type, s.payload)] })

/-- The `/api/vanna/train/cancel` handler `cancel_training`
(`src/vanna_server/vanna_service.py`): membership test only, then
`del`; the session's `status` is never consulted. -/
def cancel_training (st : VannaState) (sid : String) :
    CancelResult × VannaState :=
  if (slookup st.training_sessions sid).isSome then
    (.success, { st with training_sessions := sremove st.training_sessions sid })
  else (.unknownSession, st)

theorem slookup_supdate {l : List (String × TrainingSession)} {k : String}
    {s : TrainingSession} (h : slookup l k = some s) (v : TrainingSession) :
    slookup (supdate l k v) k = some v := by
  induction l with
  | nil => simp [slookup] at h
  | cons p t ih =>
    obtain ⟨k', w⟩ := p
    by_cases hk : k' = k
    · subst hk
      simp [supdate, slookup]
    · rw [slookup, if_neg hk] at h
      rw [supdate, if_neg hk, slookup, if_neg hk]
      exact ih h

theorem slookup_sremove (l : List (String × TrainingSession)) (k : String) :
    slookup (sremove l k) k = none := by
  induction l with
  | nil => rfl
  | cons p t ih =>
    obtain ⟨k', w⟩ := p
    by_cases hk : k' = k
    · rw [sremove, if_pos hk]
      exact ih
    · rw [sremove, if_neg hk, slookup, if_neg hk]
      exact ih

theorem confirm_training_success {st : VannaState} {sid : String}
    {st' : VannaState} (h : confirm_training st sid = (.success, st')) :
    ∃ s, slookup st.training_sessions sid = some s ∧
      s.status ≠ "completed" ∧
      st' = { training_sessions :=
                supdate st.training_sessions sid { s with status := "completed" },
              trained := st.trained ++ [(s.training_type, s.payload)] } := by
  unfold confirm_training at h
  split at h
  · exact absurd (congrArg Prod.fst h) (by simp)
  · rename_i s hl
    split at h
    · exact absurd (congrArg Prod.fst h) (by simp)
    · rename_i hs
      exact ⟨s, hl, hs, (Prod.mk.injEq .. ▸ h).2.symm⟩

/-- A concrete staged `sql_example` training action. -/
def demoSession : TrainingSession :=
  { session_id := "training_ab12cd34", training_type := "sql_example",
    payload := "查询所有城市|SELECT * FROM cities", status := "pending" }

/-- A service state holding exactly the one pending session. -/
def demoState : VannaState :=
  { training_sessions := [("training_ab12cd34", demoSession)], trained := [] }

/-- The state after confirming the pending session of `demoState`. -/
def demoStateConfirmed : VannaState :=
  { training_sessions :=
      [("training_ab12cd34", { demoSession with status := "completed" })],
    trained := [("sql_example", "查询所有城市|SELECT * FROM cities")] }

/-- C1 (counterexample): on a session id whose staged action has been
confirmed, a subsequent `cancel_training` does not fail — it returns
success (and deletes the session), contradicting the claim that cancel
on a confirmed session fails with `AlreadyFinalized`. -/
theorem c1_cancel_after_confirm_succeeds_counterexample :
    (confirm_training demoState "training_ab12cd34").1 = ConfirmResult.success ∧
    (cancel_training (confirm_training demoState "training_ab12cd34").2
        "training_ab12cd34").1 = CancelResult.success := by
  decide

/-- C1 (amended): after a successful confirm, a second confirm on the
same id fails ("训练会话已完成") without executing the staged effect
again and without changing the state; a subsequent cancel, however,
succeeds — it removes the session from the store, leaving the log of
executed training effects unchanged — rather than failing with
`AlreadyFinalized`. -/
theorem c1_confirm_terminal_but_cancel_succeeds (st : VannaState)
    (sid : String) (st' : VannaState)
    (h : confirm_training st sid = (.success, st')) :
    confirm_training st' sid = (.alreadyCompleted, st') ∧
    cancel_training st' sid =
      (.success, { st' with training_sessions :=
                     sremove st'.training_sessions sid }) ∧
    (cancel_training st' sid).2.trained = st'.trained ∧
    slookup (cancel_training st' sid).2.training_sessions sid = none := by
  obtain ⟨s, hl, -, rfl⟩ := confirm_training_success h
  have hlook := slookup_supdate hl { s with status := "completed" }
  refine ⟨?_, ?_, ?_, ?_⟩
  · unfold confirm_training
    rw [hlook]
    rfl
  · unfold cancel_training
    rw [hlook]
    rfl
  · unfold cancel_training
    rw [hlook]
    rfl
  · unfold cancel_training
    rw [hlook]
    exact slookup_sremove _ _

/-- Witness: the amended C1 theorem applied to the concrete one-session
state. -/
theorem c1_confirm_terminal_but_cancel_succeeds_witness :
    confirm_training demoStateConfirmed "training_ab12cd34" =
      (.alreadyCompleted, demoStateConfirmed) ∧
    cancel_training demoStateConfirmed "training_ab12cd34" =
      (.success,
       { demoStateConfirmed with
         training_sessions := sremove demoStateConfirmed.training_sessions "training_ab12cd34" }) ∧
    (cancel_training demoStateConfirmed "training_ab12cd34").2.trained =
      demoStateConfirmed.trained ∧
    slookup (cancel_training demoStateConfirmed
        "training_ab12cd34").2.training_sessions "training_ab12cd34" = none :=
  c1_confirm_terminal_but_cancel_succeeds demoState "training_ab12cd34"
    demoStateConfirmed (by decide)

/-! ## Concurrency of `confirm_training` (claim C5)

The Flask development server (`app.run`, Flask ≥ 1.0) handles requests
in concurrent threads, and `training_sessions` is a bare module-level
dict with no lock.  A `confirm_training` handler performs, in order,
three steps that other threads can interleave with:

* step 0 — `training_sessions.get(session_id)` and the
  `session.status == "completed"` test (a read of shared state);
* step 1 — `vn.train(...)`, the staged side effect (blocking network
  I/O, during which other threads run);
* step 2 — `session.status = "completed"` and the success return
  (a write of shared state).

The model below runs two such handlers on the same already-staged
session under an explicit interleaving schedule (`true` steps thread 1,
`false` steps thread 2) and counts executions of the staged effect.
-/

/-- The control state of one in-flight `confirm_training` call:
its next step (0 = status check, 1 = `vn.train`, 2 = status write,
3 = returned) and its result once returned. -/
structure ConfirmThread where
  pc : Nat
  result : Option ConfirmResult
deriving DecidableEq

/-- Shared-plus-thread state of two concurrent `confirm_training`
calls on the same session: the session's `status` field, the number of
times the staged effect has run, and both thread states. -/
structure RaceState where
  status : String
  executions : Nat
  thread1 : ConfirmThread
  thread2 : ConfirmThread
deriving DecidableEq

/-- One atomic step of a `confirm_training` handler, from the step
breakdown above. -/
def stepConfirm (status : String) (execs : Nat) (t : ConfirmThread) :
    String × Nat × ConfirmThread :=
  if t.pc = 0 then
    if status = "completed" then (status, execs, ⟨3, some .alreadyCompleted⟩)
    else (status, execs, ⟨1, t.result⟩)
  else if t.pc = 1 then (status, execs + 1, ⟨2, t.result⟩)
  else if t.pc = 2 then ("completed", execs, ⟨3, some .success⟩)
  else (status, execs, t)

/-- Run the two threads under an interleaving schedule: `true` gives
the next atomic step to thread 1, `false` to thread 2. -/
def runSchedule : RaceState → List Bool → RaceState
  | st, [] => st
  | st, b :: rest =>
    if b then
      let r := stepConfirm st.status st.executions st.thread1
      runSchedule ⟨r.1, r.2.1, r.2.2, st.thread2⟩ rest
    else
      let r := stepConfirm st.status st.executions st.thread2
      runSchedule ⟨r.1, r.2.1, st.thread1, r.2.2⟩ rest

/-- Both handlers poised at the status check of one pending session. -/
def raceInit : RaceState := ⟨"pending", 0, ⟨0, none⟩, ⟨0, none⟩⟩

/-- C5 (counterexample): an interleaving of two concurrent confirms of
the same pending session in which both pass the status check before
either writes `completed`: the staged effect executes twice and both
calls report success — not "exactly one executes and the other fails
with `AlreadyFinalized`". -/
theorem c5_double_execution_counterexample :
    (runSchedule raceInit [true, false, true, true, false, false]).executions = 2 ∧
    (runSchedule raceInit
      [true, false, true, true, false, false]).thread1.result =
        some ConfirmResult.success ∧
    (runSchedule raceInit
      [true, false, true, true, false, false]).thread2.result =
        some ConfirmResult.success := by
  decide

/-- C5 (amended): confirm attempts on the same id are not mutually
exclusive.  When one confirm finishes before the other's status check
(a serial schedule), exactly one executes the staged effect and the
other fails with "训练会话已完成"; but the unsynchronized
check-then-act window admits an interleaving in which both confirms
execute the effect and both report success. -/
theorem c5_confirm_not_mutually_exclusive :
    ((runSchedule raceInit [true, true, true, false]).executions = 1 ∧
     (runSchedule raceInit [true, true, true, false]).thread1.result =
       some ConfirmResult.success ∧
     (runSchedule raceInit [true, true, true, false]).thread2.result =
       some ConfirmResult.alreadyCompleted) ∧
    ((runSchedule raceInit [true, false, true, true, false, false]).executions = 2 ∧
     (runSchedule raceInit
       [true, false, true, true, false, false]).thread1.result =
         some ConfirmResult.success ∧
     (runSchedule raceInit
       [true, false, true, true, false, false]).thread2.result =
         some ConfirmResult.success) := by
  decide

/-! ## Intent classifier (`NLQueryParser`, `src/tools/text_to_sql.py`)

`detect_query_type` lowercases the query and walks `QUERY_PATTERNS`
(an insertion-ordered dict of intent → regex list) in declaration
order, returning the first intent one of whose regexes matches
(`re.search`); it returns `None` when nothing matches.

The regexes use only two shapes, which are embedded as such:

* an alternation of fixed words, `(w1|w2|...)` — a match exists iff
  some `wi` is a substring;
* a gapped pair `(a1|a2).+?(b1|b2)` — a match exists iff some `ai`
  occurs, followed by at least one character, none of which is a
  newline (`.` does not match `\n`), followed by some `bj`.
  Laziness of `+?` does not change match existence.
-/

/-- One alternative of an embedded regex: a fixed word, or a pair of
word sets separated by a mandatory non-newline gap (`a.+?b`). -/
inductive ReAlt where
  | lit (w : String)
  | gap (heads tails : List String)

/-- After one head word has been consumed: consume one or more
non-newline gap characters, then require some tail word. -/
def gapTail (tails : List (List Char)) : List Char → Bool
  | [] => false
  | c :: rest =>
    decide (c ≠ '\n') &&
      (tails.any (fun b => listStarts b rest) || gapTail tails rest)

/-- Search for `(heads).+?(tails)` anywhere in the text. -/
def gapSearch (heads tails : List (List Char)) : List Char → Bool
  | [] => false
  | l@(_ :: t) =>
    heads.any (fun a => listStarts a l && gapTail tails (l.drop a.length)) ||
      gapSearch heads tails t

/-- Search for one alternative anywhere in the text. -/
def altSearch : ReAlt → List Char → Bool
  | .lit w, l => listContains w.data l
  | .gap heads tails, l =>
    gapSearch (heads.map String.data) (tails.map String.data) l

/-- A regex (list of alternatives) matches iff some alternative does. -/
def patternSearch (alts : List ReAlt) (l : List Char) : Bool :=
  alts.any (fun alt => altSearch alt l)

/-- Some regex of the intent's pattern list matches. -/
def patternsMatch (pats : List (List ReAlt)) (l : List Char) : Bool :=
  pats.any (fun pat => patternSearch pat l)

/-- The class attribute `NLQueryParser.QUERY_PATTERNS`, in its declared
order; each regex of the source is transcribed into the two shapes
above (alternations over both sides of `.+?` are expanded into the two
word sets, which preserves match existence). -/
def QUERY_PATTERNS : List (String × List (List ReAlt)) :=
  [("nearby",
    [[.lit "附近", .lit "周围", .lit "周边", .gap ["距离"] ["以内"]],
     [.gap ["find", "search"] ["near", "around", "within"]]]),
   ("buffer",
    [[.lit "缓冲区", .lit "缓冲", .lit "buffer"],
     [.gap ["create"] ["buffer"]]]),
   ("intersection",
    [[.lit "相交", .lit "交集", .lit "重叠"],
     [.lit "intersect", .lit "overlap"]]),
   ("within",
    [[.gap ["在"] ["内"], .lit "包含在"],
     [.lit "within", .lit "inside"]]),
   ("area",
    [[.lit "面积", .lit "大小"],
     [.lit "area", .lit "size"]]),
   ("distance",
    [[.lit "距离", .lit "相距"],
     [.lit "distance", .lit "how far"]]),
   ("count",
    [[.lit "数量", .lit "个数", .lit "有多少"],
     [.lit "count", .lit "how many"]])]

/-- `NLQueryParser.detect_query_type`: lower-case the query, walk the
ordered intent list, return the first intent with a matching pattern,
`None` otherwise. -/
def detect_query_type (query : String) : Option String :=
  (QUERY_PATTERNS.find?
    (fun p => patternsMatch p.2 (pyLower query).data)).map Prod.fst

/-- C6: intent classification is first-match over the fixed declared
order (nearby, buffer, intersection, within, area, distance, count):
whenever an intent is returned, its patterns match and every
earlier-declared intent's patterns do not; `None` is returned exactly
when no intent's pattern matches.  The concrete query
"查询距离500米以内的建筑" matches both the `nearby` patterns and the
later-declared `distance` patterns, and the earlier `nearby` wins;
"计算面积有多少" matches both `area` and the later `count`, and `area`
wins; a query matching nothing yields `None`. -/
theorem c6_first_match_fixed_order :
    (∀ query intent : String,
      detect_query_type query = some intent →
      ∃ pats pre post,
        QUERY_PATTERNS = pre ++ (intent, pats) :: post ∧
        patternsMatch pats (pyLower query).data = true ∧
        ∀ p ∈ pre, patternsMatch p.2 (pyLower query).data = false) ∧
    (∀ query : String, detect_query_type query = none →
      ∀ p ∈ QUERY_PATTERNS, patternsMatch p.2 (pyLower query).data = false) ∧
    (detect_query_type "查询距离500米以内的建筑" = some "nearby" ∧
     patternsMatch (QUERY_PATTERNS.get! 5).2
       (pyLower "查询距离500米以内的建筑").data = true) ∧
    (detect_query_type "计算面积有多少" = some "area" ∧
     patternsMatch (QUERY_PATTERNS.get! 6).2
       (pyLower "计算面积有多少").data = true) ∧
    detect_query_type "hello world" = none := by
  refine ⟨?_, ?_, ⟨by decide, by decide⟩, ⟨by decide, by decide⟩, by decide⟩
  · intro query intent h
    unfold detect_query_type at h
    obtain ⟨p, hfind, hfst⟩ := Option.map_eq_some'.mp h
    obtain ⟨intent', pats⟩ := p
    cases hfst
    obtain ⟨pre, post, hsplit, hmatch, hpre⟩ := find?_first_hit _ _ _ hfind
    exact ⟨pats, pre, post, hsplit, hmatch, fun p hp => by simpa using hpre p hp⟩
  · intro query h
    unfold detect_query_type at h
    intro p hp
    simpa using List.find?_eq_none.mp (Option.map_eq_none'.mp h) p hp

/-- Closed instantiation of the universal part of the C6 theorem at a
query matching two intents' patterns. -/
theorem c6_first_match_fixed_order_witness :
    ∃ pats pre post,
      QUERY_PATTERNS = pre ++ ("nearby", pats) :: post ∧
      patternsMatch pats (pyLower "查询距离500米以内的建筑").data = true ∧
      ∀ p ∈ pre,
        patternsMatch p.2 (pyLower "查询距离500米以内的建筑").data = false :=
  c6_first_match_fixed_order.1 "查询距离500米以内的建筑" "nearby" (by decide)

/-! ## Slot extractors (`NLQueryParser`, `src/tools/text_to_sql.py`)

`extract_distance` runs
`re.search(r"(\d+(?:\.\d+)?)\s*(米|公里|千米|m|km|kilometer|meter)", query)`
(no IGNORECASE), converting the captured number to a float and
multiplying by 1000 when the captured unit (lower-cased) is one of
公里/千米/km/kilometer.

`extract_coordinates` runs
`re.search(r"(\d+\.?\d*)[,，]\s*(\d+\.?\d*)", query)` and converts both
captured groups to floats.

`extract_table_name` runs
`re.search(r"(表|table)\s*[:\s]*([a-zA-Z_][a-zA-Z0-9_]*)", query,
re.IGNORECASE)` and returns group 2.

The searches are embedded as left-to-right scans over the character
list, trying a match at each start position (the leftmost semantics of
`re.search`).  Greedy digit runs never need to backtrack against these
patterns: nothing that follows a digit run in any of the patterns can
begin with a digit, so the maximal run is exact; similarly the `\s*`
and `[:\s]*` runs are maximal because no unit or identifier begins
with whitespace or a colon.  Matched numerals are represented as the
digit run before the point plus the digit run after it, and their
numeric value exactly as a rational. -/

/-- Numeric value of a decimal digit run (the integer part of a
matched numeral). -/
def digitsToNat : List Char → Nat :=
  List.foldl (fun acc c => acc * 10 + (c.toNat - 48)) 0

/-- Exact value of a matched numeral: integer part `n` and fractional
digit run `fr` (Python `float("<n>.<fr>")`, as a rational). -/
def tokenVal (n : Nat) (fr : List Char) : ℚ :=
  (n : ℚ) + (digitsToNat fr : ℚ) / (10 : ℚ) ^ fr.length

/-- The unit alternatives of `NUMBER_PATTERN`, in alternation order. -/
def distanceUnits : List String :=
  ["米", "公里", "千米", "m", "km", "kilometer", "meter"]

/-- The kilometre synonyms of `extract_distance`
(`if unit in ['公里', '千米', 'km', 'kilometer']`). -/
def kmUnits : List String := ["公里", "千米", "km", "kilometer"]

/-- Try `NUMBER_PATTERN` at one start position: a digit run, an
optional point followed by a mandatory digit run, optional whitespace,
then the first unit alternative that fits.  Returns the integer part,
the fractional digits and the captured unit. -/
def numberAt (l : List Char) : Option (Nat × List Char × String) :=
  match l with
  | [] => none
  | c :: _ =>
    if c.isDigit then
      let d1 := l.takeWhile Char.isDigit
      let rest1 := l.dropWhile Char.isDigit
      let frRest :=
        match rest1 with
        | '.' :: r2 =>
          if (r2.headD ' ').isDigit then
            (r2.takeWhile Char.isDigit, r2.dropWhile Char.isDigit)
          else ([], rest1)
        | _ => ([], rest1)
      let rest3 := frRest.2.dropWhile Char.isWhitespace
      match distanceUnits.find? (fun u => listStarts u.data rest3) with
      | some u => some (digitsToNat d1, frRest.1, u)
      | none => none
    else none

/-- Leftmost search for `NUMBER_PATTERN` (`re.search`). -/
def numberSearch : List Char → Option (Nat × List Char × String)
  | [] => none
  | l@(_ :: t) =>
    match numberAt l with
    | some r => some r
    | none => numberSearch t

/-- `NLQueryParser.extract_distance`: value of the first numeral+unit
token, converted to metres (×1000 for kilometre synonyms). -/
def extract_distance (query : String) : Option ℚ :=
  match numberSearch query.data with
  | none => none
  | some (n, fr, u) =>
    let value := tokenVal n fr
    let unit := pyLower u
    if unit ∈ kmUnits then some (value * 1000) else some value

/-- C7: `extract_distance` normalizes to metres: when the first
numeral+unit token carries a kilometre synonym (公里, 千米, km,
kilometer) the value is multiplied by 1000; with a metre synonym (米,
m, meter) it is returned unchanged; with no numeral+unit token the
result is `None`.  In particular
`extract_distance("500米") == 500.0`,
`extract_distance("2km") == 2000.0` and
`extract_distance("no number here") is None`. -/
theorem c7_extract_distance_normalizes_to_meters :
    (∀ (query : String) (n : Nat) (fr : List Char) (u : String),
      numberSearch query.data = some (n, fr, u) → u ∈ kmUnits →
      extract_distance query = some (tokenVal n fr * 1000)) ∧
    (∀ (query : String) (n : Nat) (fr : List Char) (u : String),
      numberSearch query.data = some (n, fr, u) →
      u ∈ (["米", "m", "meter"] : List String) →
      extract_distance query = some (tokenVal n fr)) ∧
    (∀ query : String, numberSearch query.data = none →
      extract_distance query = none) ∧
    extract_distance "500米" = some 500 ∧
    extract_distance "2km" = some 2000 ∧
    extract_distance "no number here" = none := by
  refine ⟨?_, ?_, ?_, ?_, ?_, ?_⟩
  · intro query n fr u h hu
    simp only [extract_distance, h]
    simp only [kmUnits, List.mem_cons, List.not_mem_nil, or_false] at hu
    rcases hu with rfl | rfl | rfl | rfl
    all_goals rw [if_pos (by decide)]
  · intro query n fr u h hu
    simp only [extract_distance, h]
    simp only [List.mem_cons, List.not_mem_nil, or_false] at hu
    rcases hu with rfl | rfl | rfl
    all_goals rw [if_neg (by decide)]
  · intro query h
    simp only [extract_distance, h]
  · have h : numberSearch "500米".data = some (500, [], "米") := by decide
    simp only [extract_distance, h]
    rw [if_neg (by decide)]
    norm_num [tokenVal, digitsToNat]
  · have h : numberSearch "2km".data = some (2, [], "km") := by decide
    simp only [extract_distance, h]
    rw [if_pos (by decide)]
    norm_num [tokenVal, digitsToNat]
  · have h : numberSearch "no number here".data = none := by decide
    simp only [extract_distance, h]

/-- Closed instantiation of the conditional parts of the C7 theorem. -/
theorem c7_extract_distance_normalizes_to_meters_witness :
    extract_distance "2km" = some (tokenVal 2 [] * 1000) ∧
    extract_distance "500米" = some (tokenVal 500 []) :=
  ⟨c7_extract_distance_normalizes_to_meters.1 "2km" 2 [] "km"
      (by decide) (by decide),
   c7_extract_distance_normalizes_to_meters.2.1 "500米" 500 [] "米"
      (by decide) (by decide)⟩

/-- Try `COORD_PATTERN` at one start position: a numeral (digit run,
then a greedily taken optional point with a possibly empty digit run),
an ASCII or full-width comma, optional whitespace, then a second such
numeral.  Group 1 must be followed directly by the comma, so when a
point is present the comma must follow its digit run; group 2 is
greedy with nothing after it. -/
def coordAt (l : List Char) : Option ((Nat × List Char) × (Nat × List Char)) :=
  match l with
  | [] => none
  | c :: _ =>
    if c.isDigit then
      let d1 := l.takeWhile Char.isDigit
      let rest1 := l.dropWhile Char.isDigit
      let g1rest :=
        match rest1 with
        | '.' :: r2 =>
          let fr := r2.takeWhile Char.isDigit
          match r2.dropWhile Char.isDigit with
          | c2 :: r3 =>
            if c2 = ',' ∨ c2 = '，' then some ((digitsToNat d1, fr), r3)
            else none
          | [] => none
        | c2 :: r3 =>
          if c2 = ',' ∨ c2 = '，' then some ((digitsToNat d1, []), r3)
          else none
        | [] => none
      match g1rest with
      | none => none
      | some (g1, afterComma) =>
        let r4 := afterComma.dropWhile Char.isWhitespace
        match r4 with
        | c2 :: _ =>
          if c2.isDigit then
            let e1 := r4.takeWhile Char.isDigit
            let rest2 := r4.dropWhile Char.isDigit
            match rest2 with
            | '.' :: r5 => some (g1, (digitsToNat e1, r5.takeWhile Char.isDigit))
            | _ => some (g1, (digitsToNat e1, []))
          else none
        | [] => none
    else none

/-- Leftmost search for `COORD_PATTERN` (`re.search`). -/
def coordSearch : List Char → Option ((Nat × List Char) × (Nat × List Char))
  | [] => none
  | l@(_ :: t) =>
    match coordAt l with
    | some r => some r
    | none => coordSearch t

/-- `NLQueryParser.extract_coordinates`: the first
"number, number" pair, as `(longitude, latitude)`. -/
def extract_coordinates (query : String) : Option (ℚ × ℚ) :=
  (coordSearch query.data).map
    (fun g => (tokenVal g.1.1 g.1.2, tokenVal g.2.1 g.2.2))

/-- Try `TABLE_PATTERN` at one start position: the word `表` or the
case-insensitive word `table`, a run of whitespace and colons, then an
identifier `[a-zA-Z_][a-zA-Z0-9_]*` (the `\s*[:\s]*` pair of runs is
one run over whitespace-or-colon). -/
def tableAt (l : List Char) : Option String :=
  let afterKey :=
    if listStarts "表".data l then some (l.drop 1)
    else if listStarts "table".data (l.map Char.toLower) then some (l.drop 5)
    else none
  match afterKey with
  | none => none
  | some rest =>
    let rest2 := rest.dropWhile (fun c => c.isWhitespace || c = ':')
    match rest2 with
    | c :: _ =>
      if c.isAlpha || c = '_' then
        some ⟨rest2.takeWhile (fun d => d.isAlphanum || d = '_')⟩
      else none
    | [] => none

/-- Leftmost search for `TABLE_PATTERN` (`re.search` with
`re.IGNORECASE`). -/
def tableSearch : List Char → Option String
  | [] => none
  | l@(_ :: t) =>
    match tableAt l with
    | some r => some r
    | none => tableSearch t

/-- `NLQueryParser.extract_table_name`: group 2 of the first
`TABLE_PATTERN` match. -/
def extract_table_name (query : String) : Option String :=
  tableSearch query.data

/-- Every matched numeral has a non-negative exact value. -/
theorem tokenVal_nonneg (n : Nat) (fr : List Char) : 0 ≤ tokenVal n fr := by
  unfold tokenVal
  positivity

/-- C9: `extract_coordinates` never returns a negative component: the
coordinate pattern matches only unsigned digit sequences, so every
result is a pair of non-negative values, and a preceding minus sign is
silently dropped — "-120.5, 30.2" yields `(120.5, 30.2)`. -/
theorem c9_extract_coordinates_nonnegative :
    (∀ (query : String) (lon lat : ℚ),
      extract_coordinates query = some (lon, lat) → 0 ≤ lon ∧ 0 ≤ lat) ∧
    extract_coordinates "-120.5, 30.2" = some (120.5, 30.2) := by
  constructor
  · intro query lon lat h
    unfold extract_coordinates at h
    cases hc : coordSearch query.data with
    | none => rw [hc] at h; simp at h
    | some g =>
      rw [hc] at h
      simp only [Option.map_some', Option.some.injEq, Prod.mk.injEq] at h
      obtain ⟨h1, h2⟩ := h
      exact ⟨h1 ▸ tokenVal_nonneg _ _, h2 ▸ tokenVal_nonneg _ _⟩
  · have h : coordSearch "-120.5, 30.2".data =
        some ((120, ['5']), (30, ['2'])) := by decide
    simp only [extract_coordinates, h, Option.map_some']
    norm_num [tokenVal, show digitsToNat ['5'] = 5 from by decide,
      show digitsToNat ['2'] = 2 from by decide]

/-- Closed instantiation of the universal part of the C9 theorem at the
signed-text example. -/
theorem c9_extract_coordinates_nonnegative_witness :
    0 ≤ (120.5 : ℚ) ∧ 0 ≤ (30.2 : ℚ) :=
  c9_extract_coordinates_nonnegative.1 "-120.5, 30.2" 120.5 30.2
    c9_extract_coordinates_nonnegative.2

/-! ## SQL generator (`SQLGenerator`, `src/tools/text_to_sql.py`)

Each generator renders one fixed f-string template and returns it
stripped.  Numeric interpolations (`f"{longitude}"` of a Python float)
are rendered by `renderQ` below, which is exact on the decimal values
the extractors produce; no statement below depends on the rendered
digits, only on the fixed text of the templates and the interpolated
identifier strings. -/

/-- Fractional decimal digits of `r / d`, most significant first. -/
def fracDigitsAux (d : Nat) : Nat → Nat → List Char
  | _, 0 => []
  | r, fuel+1 =>
    if r = 0 then []
    else Char.ofNat (48 + (r * 10) / d) :: fracDigitsAux d ((r * 10) % d) fuel

/-- Decimal rendering of a non-negative rational, with at least one
fractional digit (CPython float formatting of the extractors' decimal
values: `500.0`, `2.5`, ...). -/
def renderQ (q : ℚ) : String :=
  let n := q.num.toNat
  let d := q.den
  let ds := fracDigitsAux d (n % d) 17
  toString (n / d) ++ "." ++ (if ds.isEmpty then "0" else ⟨ds⟩)

/-- `SQLGenerator.generate_nearby_query`. -/
def generate_nearby_query (table_name geom_column : String)
    (longitude latitude radius : ℚ) (limit : Nat) (schema : String) : String :=
  let point_wkt := "POINT(" ++ renderQ longitude ++ " " ++ renderQ latitude ++ ")"
  pyStrip
    ("\n-- 查询坐标(" ++ renderQ longitude ++ ", " ++ renderQ latitude ++
     ")周围" ++ renderQ radius ++
     "米内的要素\nSELECT \n    *,\n    ST_Distance(\n        ST_Transform(" ++
     geom_column ++
     ", 4326)::geography,\n        ST_GeogFromText(\x27SRID=4326;" ++
     point_wkt ++
     "\x27)\n    ) as distance_meters\nFROM " ++
     schema ++ "." ++ table_name ++
     "\nWHERE ST_DWithin(\n    ST_Transform(" ++
     geom_column ++
     ", 4326)::geography,\n    ST_GeogFromText(\x27SRID=4326;" ++
     point_wkt ++
     "\x27),\n    " ++ renderQ radius ++
     "\n)\nORDER BY distance_meters\nLIMIT " ++
     toString limit ++ ";\n")

/-- `SQLGenerator.generate_buffer_query`. -/
def generate_buffer_query (table_name geom_column : String) (distance : ℚ)
    (where_clause : Option String) (schema : String) : String :=
  let w := match where_clause with
    | some wc => "WHERE " ++ wc
    | none => ""
  pyStrip
    ("\n-- 创建" ++ renderQ distance ++
     "米缓冲区\nSELECT \n    *,\n    ST_AsText(\n        ST_Buffer(\n            ST_Transform(" ++
     geom_column ++
     ", 3857),\n            " ++ renderQ distance ++
     "\n        )\n    ) as buffer_geom,\n    ST_Area(\n        ST_Buffer(\n            ST_Transform(" ++
     geom_column ++
     ", 3857),\n            " ++ renderQ distance ++
     "\n        )\n    ) as buffer_area_sqm\nFROM " ++
     schema ++ "." ++ table_name ++ "\n" ++ w ++ ";\n")

/-- `SQLGenerator.generate_area_query`. -/
def generate_area_query (table_name geom_column : String)
    (where_clause : Option String) (schema : String) : String :=
  let w := match where_clause with
    | some wc => "WHERE " ++ wc
    | none => ""
  pyStrip
    ("\n-- 计算几何面积\nSELECT \n    *,\n    ST_Area(ST_Transform(" ++
     geom_column ++
     ", 3857)) as area_sqm,\n    ST_Area(ST_Transform(" ++
     geom_column ++
     ", 3857)) / 1000000.0 as area_sqkm\nFROM " ++
     schema ++ "." ++ table_name ++ "\n" ++ w ++
     "\nORDER BY area_sqm DESC;\n")

/-- `SQLGenerator.generate_count_query`. -/
def generate_count_query (table_name : String)
    (where_clause : Option String) (schema : String) : String :=
  let w := match where_clause with
    | some wc => "WHERE " ++ wc
    | none => ""
  pyStrip
    ("\n-- 统计要素数量\nSELECT COUNT(*) as feature_count\nFROM " ++
     schema ++ "." ++ table_name ++ "\n" ++ w ++ ";\n")

theorem pyStrip_data (s : String) : (pyStrip s).data = stripData s.data := rfl

theorem listContains_append_of_left {p a : List Char} (b : List Char)
    (h : listContains p a = true) : listContains p (a ++ b) = true := by
  obtain ⟨u, v, rfl⟩ := (listContains_iff p a).mp h
  exact (listContains_iff p _).mpr ⟨u, v ++ b, by simp⟩

theorem listContains_append_of_right {p b : List Char} (a : List Char)
    (h : listContains p b = true) : listContains p (a ++ b) = true := by
  obtain ⟨u, v, rfl⟩ := (listContains_iff p b).mp h
  exact (listContains_iff p _).mpr ⟨a ++ u, v, by simp⟩

set_option maxRecDepth 8192

/-- C3 (counterexample): the buffer and area templates, whose result
sets are unbounded, do not contain any `LIMIT` clause — refuting the
claim that every such generated sql text contains one (the nearby
template does). -/
theorem c3_buffer_area_lack_limit_counterexample :
    listContains "LIMIT".data
      (generate_buffer_query "roads" "geom" 100 none "public").data = false ∧
    listContains "LIMIT".data
      (generate_area_query "parcels" "geom" none "public").data = false := by
  constructor <;> decide

/-- C3 (amended): of the three unbounded-result templates only the
nearby generator appends an explicit row-limit clause — its output
contains `LIMIT` for every choice of arguments — while the buffer and
area generators leave their result sets unlimited (shown on concrete
arguments; any row-limiting for those happens only later, inside
`execute_generated_sql` at execution time). -/
theorem c3_only_nearby_has_limit_clause :
    (∀ (table_name geom_column schema : String)
       (longitude latitude radius : ℚ) (limit : Nat),
      listContains "LIMIT".data
        (generate_nearby_query table_name geom_column longitude latitude
          radius limit schema).data = true) ∧
    listContains "LIMIT".data
      (generate_buffer_query "roads" "geom" 100 none "public").data = false ∧
    listContains "LIMIT".data
      (generate_area_query "parcels" "geom" none "public").data = false := by
  refine ⟨?_, by decide, by decide⟩
  intro table_name geom_column schema longitude latitude radius limit
  simp only [generate_nearby_query, pyStrip_data]
  apply listContains_strip (by decide) (by decide)
  simp only [String.data_append]
  apply listContains_append_of_left
  apply listContains_append_of_left
  apply listContains_append_of_right
  decide

/-! ## End-to-end parsing (`parse_nl_query`, `src/tools/text_to_sql.py`)

`parse_nl_query(query, table_name=None, schema="public")`:
1. classify the query; no intent → error;
2. `final_table = extract_table_name(query) or table_name`; neither →
   error;
3. `SQLGenerator.get_table_info(final_table, schema)` — a catalog
   lookup of `geometry_columns` raising `ValueError`
   ("表 {schema}.{table} 不存在或不包含几何列") when no geometry column
   is registered.  The database collaborator is modelled as an oracle
   `catalog : table → schema → Option TableInfo`;
4. per intent: `nearby` requires coordinates then distance, `buffer`
   requires distance — each missing slot is an error naming the value —
   then the matching generator runs (`nearby` with default
   `limit = 100`); `area` and `count` generate directly; the remaining
   intents report "尚未实现完整支持".
-/

/-- The geometry descriptor assembled by `SQLGenerator.get_table_info`:
geometry column, geometry type, SRID and the table's columns. -/
structure TableInfo where
  geom_column : String
  geom_type : String
  srid : Int
  columns : List (String × String)
deriving DecidableEq

/-- The success payload of `parse_nl_query` (the keys of the returned
dict besides `success: True`). -/
structure ParseSuccess where
  query_type : String
  table_name : String
  schema : String
  table_info : TableInfo
  sql : String
  parameters : List (String × ℚ)
  original_query : String
deriving DecidableEq

/-- Result of `parse_nl_query`: the success dict, or
`{success: False, error}`. -/
inductive ParseResult where
  | ok (r : ParseSuccess)
  | err (error : String)
deriving DecidableEq

/-- `parse_nl_query`, parameterized by the catalog oracle standing for
the `geometry_columns` lookup of `get_table_info`. -/
def parse_nl_query (catalog : String → String → Option TableInfo)
    (query : String) (table_name : Option String) (schema : String) :
    ParseResult :=
  match detect_query_type query with
  | none =>
    .err "无法识别查询类型。请使用更明确的描述，如\x27查询附近\x27、\x27计算面积\x27等"
  | some query_type =>
    match (extract_table_name query).orElse (fun _ => table_name) with
    | none =>
      .err "未指定表名。请在查询中包含表名，例如\x27表:buildings\x27，或单独提供table_name参数"
    | some final_table =>
      match catalog final_table schema with
      | none => .err ("表 " ++ schema ++ "." ++ final_table ++ " 不存在或不包含几何列")
      | some table_info =>
        let geom_column := table_info.geom_column
        if query_type = "nearby" then
          match extract_coordinates query with
          | none => .err "未找到坐标信息。请提供经纬度坐标，例如\x27120.5, 30.2\x27"
          | some coords =>
            match extract_distance query with
            | none => .err "未找到距离信息。请指定距离，例如\x27500米\x27或\x271公里\x27"
            | some distance =>
              .ok { query_type := query_type, table_name := final_table,
                    schema := schema, table_info := table_info,
                    sql := generate_nearby_query final_table geom_column
                            coords.1 coords.2 distance 100 schema,
                    parameters := [("longitude", coords.1),
                                   ("latitude", coords.2),
                                   ("radius_meters", distance)],
                    original_query := query }
        else if query_type = "buffer" then
          match extract_distance query with
          | none => .err "未找到缓冲距离。请指定距离，例如\x27100米\x27"
          | some distance =>
            .ok { query_type := query_type, table_name := final_table,
                  schema := schema, table_info := table_info,
                  sql := generate_buffer_query final_table geom_column
                          distance none schema,
                  parameters := [("buffer_distance_meters", distance)],
                  original_query := query }
        else if query_type = "area" then
          .ok { query_type := query_type, table_name := final_table,
                schema := schema, table_info := table_info,
                sql := generate_area_query final_table geom_column none schema,
                parameters := [], original_query := query }
        else if query_type = "count" then
          .ok { query_type := query_type, table_name := final_table,
                schema := schema, table_info := table_info,
                sql := generate_count_query final_table none schema,
                parameters := [], original_query := query }
        else .err ("查询类型 \x27" ++ query_type ++ "\x27 尚未实现完整支持")

theorem listContains_self (p : List Char) : listContains p p = true :=
  (listContains_iff p p).mpr ⟨[], [], by simp⟩

theorem alnum_not_ws {c : Char} (h : (c.isAlphanum || c = '_') = true) :
    c.isWhitespace = false := by
  cases hx : c.isWhitespace
  · rfl
  · simp only [Char.isWhitespace, Bool.or_eq_true, decide_eq_true_eq] at hx
    rcases hx with ((rfl | rfl) | rfl) | rfl <;> exact absurd h (by decide)

theorem alpha_imp_alnum {c : Char} (h : (c.isAlpha || c = '_') = true) :
    (c.isAlphanum || c = '_') = true := by
  simp only [Bool.or_eq_true] at h ⊢
  rcases h with h1 | h2
  · exact Or.inl (by simp [Char.isAlphanum, h1])
  · exact Or.inr h2

theorem mem_takeWhile_pred {α : Type} (p : α → Bool) :
    ∀ (l : List α) (a : α), a ∈ l.takeWhile p → p a = true := by
  intro l
  induction l with
  | nil => intro a ha; simp at ha
  | cons c t ih =>
    intro a ha
    rw [List.takeWhile_cons] at ha
    by_cases hc : p c
    · rw [if_pos hc] at ha
      rcases List.mem_cons.mp ha with rfl | ha
      · exact hc
      · exact ih a ha
    · rw [if_neg hc] at ha; simp at ha

/-- A table name produced by `TABLE_PATTERN` is a nonempty identifier
made of letters, digits and underscores — in particular free of
whitespace. -/
theorem tableAt_shape {l : List Char} {t : String} (h : tableAt l = some t) :
    t.data ≠ [] ∧ ∀ c ∈ t.data, c.isWhitespace = false := by
  simp only [tableAt] at h
  split at h
  · exact absurd h (by simp)
  · rename_i rest hrest
    split at h
    · rename_i c tl heq
      split at h
      · rename_i hcond
        cases h
        constructor
        · rw [heq, List.takeWhile_cons, if_pos (alpha_imp_alnum hcond)]
          simp
        · intro x hx
          have hx2 : x ∈ List.takeWhile (fun d => (d.isAlphanum || d = '_'))
              (List.dropWhile (fun c => (c.isWhitespace || c = ':')) rest) := hx
          exact alnum_not_ws
            (mem_takeWhile_pred (fun d => (d.isAlphanum || d = '_')) _ x hx2)
      · exact absurd h (by simp)
    · exact absurd h (by simp)

theorem tableSearch_shape {l : List Char} {t : String}
    (h : tableSearch l = some t) :
    t.data ≠ [] ∧ ∀ c ∈ t.data, c.isWhitespace = false := by
  induction l with
  | nil => simp [tableSearch] at h
  | cons c rest ih =>
    rw [tableSearch] at h
    split at h
    · rename_i r heq
      cases h
      exact tableAt_shape heq
    · exact ih h

theorem extract_table_name_shape {q t : String}
    (h : extract_table_name q = some t) :
    t.data ≠ [] ∧ ∀ c ∈ t.data, c.isWhitespace = false :=
  tableSearch_shape h

theorem generate_nearby_query_contains_table {t : String} (hne : t.data ≠ [])
    (hws : ∀ c ∈ t.data, c.isWhitespace = false) (geom_column : String)
    (longitude latitude radius : ℚ) (limit : Nat) (schema : String) :
    listContains t.data
      (generate_nearby_query t geom_column longitude latitude radius
        limit schema).data = true := by
  simp only [generate_nearby_query, pyStrip_data]
  apply listContains_strip hne hws
  simp only [String.data_append]
  apply listContains_append_of_left
  apply listContains_append_of_left
  apply listContains_append_of_left
  apply listContains_append_of_left
  apply listContains_append_of_left
  apply listContains_append_of_left
  apply listContains_append_of_left
  apply listContains_append_of_left
  apply listContains_append_of_left
  apply listContains_append_of_right
  exact listContains_self _

theorem generate_buffer_query_contains_table {t : String} (hne : t.data ≠ [])
    (hws : ∀ c ∈ t.data, c.isWhitespace = false) (geom_column : String)
    (distance : ℚ) (where_clause : Option String) (schema : String) :
    listContains t.data
      (generate_buffer_query t geom_column distance where_clause
        schema).data = true := by
  simp only [generate_buffer_query, pyStrip_data]
  apply listContains_strip hne hws
  simp only [String.data_append]
  apply listContains_append_of_left
  apply listContains_append_of_left
  apply listContains_append_of_left
  apply listContains_append_of_right
  exact listContains_self _

theorem generate_area_query_contains_table {t : String} (hne : t.data ≠ [])
    (hws : ∀ c ∈ t.data, c.isWhitespace = false) (geom_column : String)
    (where_clause : Option String) (schema : String) :
    listContains t.data
      (generate_area_query t geom_column where_clause schema).data = true := by
  simp only [generate_area_query, pyStrip_data]
  apply listContains_strip hne hws
  simp only [String.data_append]
  apply listContains_append_of_left
  apply listContains_append_of_left
  apply listContains_append_of_left
  apply listContains_append_of_right
  exact listContains_self _

theorem generate_count_query_contains_table {t : String} (hne : t.data ≠ [])
    (hws : ∀ c ∈ t.data, c.isWhitespace = false)
    (where_clause : Option String) (schema : String) :
    listContains t.data
      (generate_count_query t where_clause schema).data = true := by
  simp only [generate_count_query, pyStrip_data]
  apply listContains_strip hne hws
  simp only [String.data_append]
  apply listContains_append_of_left
  apply listContains_append_of_left
  apply listContains_append_of_left
  apply listContains_append_of_right
  exact listContains_self _

/-- A concrete geometry descriptor for a registered table. -/
def demoTableInfo : TableInfo :=
  { geom_column := "geom", geom_type := "POINT", srid := 4326,
    columns := [("id", "integer"), ("geom", "geometry")] }

/-- A concrete catalog oracle registering only `public.buildings`. -/
def demoCatalog : String → String → Option TableInfo :=
  fun t s => if t = "buildings" ∧ s = "public" then some demoTableInfo else none

/-- C8: a required-slot check precedes generation: a query classified
as `nearby` with no extractable coordinate pair, or classified as
`nearby` with no extractable distance, or classified as `buffer` with
no extractable distance, never produces a success result (no SQL text
is generated or returned), and — once the table has been resolved —
fails with the error message naming the missing value. -/
theorem c8_missing_slot_fails_before_generation :
    (∀ (catalog : String → String → Option TableInfo) (query : String)
       (tn : Option String) (schema : String),
      detect_query_type query = some "nearby" →
      extract_coordinates query = none →
      (∀ r, parse_nl_query catalog query tn schema ≠ .ok r) ∧
      (∀ ft info, (extract_table_name query).orElse (fun _ => tn) = some ft →
        catalog ft schema = some info →
        parse_nl_query catalog query tn schema =
          .err "未找到坐标信息。请提供经纬度坐标，例如\x27120.5, 30.2\x27")) ∧
    (∀ (catalog : String → String → Option TableInfo) (query : String)
       (tn : Option String) (schema : String),
      detect_query_type query = some "nearby" →
      extract_distance query = none →
      (∀ r, parse_nl_query catalog query tn schema ≠ .ok r) ∧
      (∀ ft info coords,
        (extract_table_name query).orElse (fun _ => tn) = some ft →
        catalog ft schema = some info →
        extract_coordinates query = some coords →
        parse_nl_query catalog query tn schema =
          .err "未找到距离信息。请指定距离，例如\x27500米\x27或\x271公里\x27")) ∧
    (∀ (catalog : String → String → Option TableInfo) (query : String)
       (tn : Option String) (schema : String),
      detect_query_type query = some "buffer" →
      extract_distance query = none →
      (∀ r, parse_nl_query catalog query tn schema ≠ .ok r) ∧
      (∀ ft info, (extract_table_name query).orElse (fun _ => tn) = some ft →
        catalog ft schema = some info →
        parse_nl_query catalog query tn schema =
          .err "未找到缓冲距离。请指定距离，例如\x27100米\x27")) := by
  refine ⟨?_, ?_, ?_⟩
  · intro catalog query tn schema hdet hcoords
    constructor
    · intro r
      unfold parse_nl_query
      rw [hdet]
      cases horl : (extract_table_name query).orElse (fun _ => tn) with
      | none => simp
      | some ft =>
        cases hcat : catalog ft schema with
        | none => simp [hcat]
        | some info => simp [hcat, hcoords]
    · intro ft info horl hcat
      unfold parse_nl_query
      rw [hdet, horl]
      simp [hcat, hcoords]
  · intro catalog query tn schema hdet hdist
    constructor
    · intro r
      unfold parse_nl_query
      rw [hdet]
      cases horl : (extract_table_name query).orElse (fun _ => tn) with
      | none => simp
      | some ft =>
        cases hcat : catalog ft schema with
        | none => simp [hcat]
        | some info =>
          cases hco : extract_coordinates query with
          | none => simp [hcat, hco]
          | some coords => simp [hcat, hco, hdist]
    · intro ft info coords horl hcat hco
      unfold parse_nl_query
      rw [hdet, horl]
      simp [hcat, hco, hdist]
  · intro catalog query tn schema hdet hdist
    constructor
    · intro r
      unfold parse_nl_query
      rw [hdet]
      cases horl : (extract_table_name query).orElse (fun _ => tn) with
      | none => simp
      | some ft =>
        cases hcat : catalog ft schema with
        | none => simp [hcat]
        | some info => simp [hcat, hdist]
    · intro ft info horl hcat
      unfold parse_nl_query
      rw [hdet, horl]
      simp [hcat, hdist]

/-- Closed instantiation of the C8 theorem: three concrete queries,
each missing one required slot, each rejected with the message naming
the missing value. -/
theorem c8_missing_slot_fails_before_generation_witness :
    parse_nl_query demoCatalog "表:buildings 附近的点" none "public" =
      .err "未找到坐标信息。请提供经纬度坐标，例如\x27120.5, 30.2\x27" ∧
    parse_nl_query demoCatalog "表:buildings 附近 120.5, 30.2" none "public" =
      .err "未找到距离信息。请指定距离，例如\x27500米\x27或\x271公里\x27" ∧
    parse_nl_query demoCatalog "表:buildings 缓冲区分析" none "public" =
      .err "未找到缓冲距离。请指定距离，例如\x27100米\x27" :=
  ⟨(c8_missing_slot_fails_before_generation.1 demoCatalog
      "表:buildings 附近的点" none "public" (by decide) (by decide)).2
      "buildings" demoTableInfo (by decide) rfl,
   (c8_missing_slot_fails_before_generation.2.1 demoCatalog
      "表:buildings 附近 120.5, 30.2" none "public" (by decide) (by decide)).2
      "buildings" demoTableInfo (tokenVal 120 ['5'], tokenVal 30 ['2'])
      (by decide) rfl rfl,
   (c8_missing_slot_fails_before_generation.2.2 demoCatalog
      "表:buildings 缓冲区分析" none "public" (by decide) (by decide)).2
      "buildings" demoTableInfo (by decide) rfl⟩

/-- C10: a table name found in the query text takes precedence over the
explicit `table_name` argument: when extraction succeeds with `t`, the
catalog is consulted at `t` (an unregistered `t` fails with the message
naming `t`, whatever the argument was) and every success result carries
`t` as its table and embeds `t` in the generated sql; the explicit
argument is resolved only when extraction returns `None`.  Concretely,
parsing "查询表:buildings的面积" with `table_name="roads"` resolves and
embeds `buildings`, ignoring `roads`. -/
theorem c10_text_table_overrides_parameter :
    (∀ (catalog : String → String → Option TableInfo) (query : String)
       (tn : Option String) (schema t qt : String),
      extract_table_name query = some t →
      detect_query_type query = some qt →
      catalog t schema = none →
      parse_nl_query catalog query tn schema =
        .err ("表 " ++ schema ++ "." ++ t ++ " 不存在或不包含几何列")) ∧
    (∀ (catalog : String → String → Option TableInfo) (query : String)
       (tn : Option String) (schema t : String) (r : ParseSuccess),
      extract_table_name query = some t →
      parse_nl_query catalog query tn schema = .ok r →
      r.table_name = t ∧ listContains t.data r.sql.data = true) ∧
    (∀ (catalog : String → String → Option TableInfo) (query : String)
       (schema t' qt : String),
      extract_table_name query = none →
      detect_query_type query = some qt →
      catalog t' schema = none →
      parse_nl_query catalog query (some t') schema =
        .err ("表 " ++ schema ++ "." ++ t' ++ " 不存在或不包含几何列")) ∧
    (∀ (catalog : String → String → Option TableInfo) (query : String)
       (schema t' : String) (r : ParseSuccess),
      extract_table_name query = none →
      parse_nl_query catalog query (some t') schema = .ok r →
      r.table_name = t') ∧
    parse_nl_query demoCatalog "查询表:buildings的面积" (some "roads") "public" =
      .ok { query_type := "area", table_name := "buildings",
            schema := "public", table_info := demoTableInfo,
            sql := generate_area_query "buildings" "geom" none "public",
            parameters := [], original_query := "查询表:buildings的面积" } := by
  refine ⟨?_, ?_, ?_, ?_, by rfl⟩
  · intro catalog query tn schema t qt hext hdet hcat
    unfold parse_nl_query
    rw [hdet, hext]
    simp [Option.orElse, hcat]
  · intro catalog query tn schema t r hext hok
    obtain ⟨hne, hws⟩ := extract_table_name_shape hext
    unfold parse_nl_query at hok
    cases hdet : detect_query_type query with
    | none => rw [hdet] at hok; simp at hok
    | some qt =>
      rw [hdet, hext] at hok
      simp only [Option.orElse] at hok
      cases hcat : catalog t schema with
      | none => rw [hcat] at hok; simp at hok
      | some info =>
        rw [hcat] at hok
        simp only [] at hok
        by_cases h1 : qt = "nearby"
        · subst h1
          rw [if_pos rfl] at hok
          cases hco : extract_coordinates query with
          | none => rw [hco] at hok; simp at hok
          | some coords =>
            rw [hco] at hok
            cases hdi : extract_distance query with
            | none => rw [hdi] at hok; simp at hok
            | some d =>
              rw [hdi] at hok
              simp only [ParseResult.ok.injEq] at hok
              subst hok
              exact ⟨rfl, generate_nearby_query_contains_table hne hws
                info.geom_column coords.1 coords.2 d 100 schema⟩
        · rw [if_neg h1] at hok
          by_cases h2 : qt = "buffer"
          · subst h2
            rw [if_pos rfl] at hok
            cases hdi : extract_distance query with
            | none => rw [hdi] at hok; simp at hok
            | some d =>
              rw [hdi] at hok
              simp only [ParseResult.ok.injEq] at hok
              subst hok
              exact ⟨rfl, generate_buffer_query_contains_table hne hws
                info.geom_column d none schema⟩
          · rw [if_neg h2] at hok
            by_cases h3 : qt = "area"
            · subst h3
              rw [if_pos rfl] at hok
              simp only [ParseResult.ok.injEq] at hok
              subst hok
              exact ⟨rfl, generate_area_query_contains_table hne hws
                info.geom_column none schema⟩
            · rw [if_neg h3] at hok
              by_cases h4 : qt = "count"
              · subst h4
                rw [if_pos rfl] at hok
                simp only [ParseResult.ok.injEq] at hok
                subst hok
                exact ⟨rfl, generate_count_query_contains_table hne hws
                  none schema⟩
              · rw [if_neg h4] at hok
                simp at hok
  · intro catalog query schema t' qt hext hdet hcat
    unfold parse_nl_query
    rw [hdet, hext]
    simp [Option.orElse, hcat]
  · intro catalog query schema t' r hext hok
    unfold parse_nl_query at hok
    cases hdet : detect_query_type query with
    | none => rw [hdet] at hok; simp at hok
    | some qt =>
      rw [hdet, hext] at hok
      simp only [Option.orElse] at hok
      cases hcat : catalog t' schema with
      | none => rw [hcat] at hok; simp at hok
      | some info =>
        rw [hcat] at hok
        simp only [] at hok
        by_cases h1 : qt = "nearby"
        · subst h1
          rw [if_pos rfl] at hok
          cases hco : extract_coordinates query with
          | none => rw [hco] at hok; simp at hok
          | some coords =>
            rw [hco] at hok
            cases hdi : extract_distance query with
            | none => rw [hdi] at hok; simp at hok
            | some d =>
              rw [hdi] at hok
              simp only [ParseResult.ok.injEq] at hok
              subst hok
              rfl
        · rw [if_neg h1] at hok
          by_cases h2 : qt = "buffer"
          · subst h2
            rw [if_pos rfl] at hok
            cases hdi : extract_distance query with
            | none => rw [hdi] at hok; simp at hok
            | some d =>
              rw [hdi] at hok
              simp only [ParseResult.ok.injEq] at hok
              subst hok
              rfl
          · rw [if_neg h2] at hok
            by_cases h3 : qt = "area"
            · subst h3
              rw [if_pos rfl] at hok
              simp only [ParseResult.ok.injEq] at hok
              subst hok
              rfl
            · rw [if_neg h3] at hok
              by_cases h4 : qt = "count"
              · subst h4
                rw [if_pos rfl] at hok
                simp only [ParseResult.ok.injEq] at hok
                subst hok
                rfl
              · rw [if_neg h4] at hok
                simp at hok

/-- Closed instantiation of the C10 theorem: with a catalog that
registers nothing, parsing a query naming `表:buildings` while passing
`table_name="roads"` fails by resolving `buildings` — not `roads`. -/
theorem c10_text_table_overrides_parameter_witness :
    parse_nl_query (fun _ _ => none) "查询表:buildings的面积"
      (some "roads") "public" =
      .err ("表 " ++ "public" ++ "." ++ "buildings" ++ " 不存在或不包含几何列") :=
  c10_text_table_overrides_parameter.1 (fun _ _ => none)
    "查询表:buildings的面积" (some "roads") "public" "buildings" "area"
    (by decide) (by decide) rfl
